import Mathlib

/-!
Verification of the `huze_algonauts` training repository.

The development shallowly embeds the two source files:

* `main.py` — the `vectorized_correlation` metric, the `DataAugmentation`
  module, and the `LitI3DFC` Lightning module (its `training_step` with the
  optional sharpness-aware (`asm`) two-sub-step optimization, its
  `validation_epoch_end`, and the checkpoint / early-stopping callback
  configuration built in `__main__`).
* `start_tasks.py` — the ClearML experiment fan-out loop (round-robin queue
  assignment over a fixed device pool, cloned-task hyperparameters).

Real matrices `x : Fin n → Fin m → ℝ` stand for 2-D tensors with `n` rows
(the batch dimension, dim 0) and `m` columns (output dimensions).
-/

namespace Algonauts

open Finset

noncomputable section RealEmbedding

/-! ## vectorized_correlation (main.py lines 56-71) -/

/-- The constant `1e-8` added to each standard deviation in
`vectorized_correlation` (main.py lines 66-67). -/
def eps : ℝ := 1e-8

/-- `x.mean(dim=0, keepdims=True)` restricted to column `j`: the mean of
column `j` across the batch dimension. -/
def colMean {n m : ℕ} (x : Fin n → Fin m → ℝ) (j : Fin m) : ℝ :=
  (∑ i, x i j) / n

/-- `centered_x = x - x.mean(dim, keepdims=True)` (main.py line 59). -/
def centered {n m : ℕ} (x : Fin n → Fin m → ℝ) (i : Fin n) (j : Fin m) : ℝ :=
  x i j - colMean x j

/-- `covariance = (centered_x * centered_y).sum(dim, keepdims=True)`
(main.py line 62), at column `j`. -/
def covariance {n m : ℕ} (x y : Fin n → Fin m → ℝ) (j : Fin m) : ℝ :=
  ∑ i, centered x i j * centered y i j

/-- The divisor `x.shape[dim] - 1` of main.py line 64, as the real number the
tensor division uses. -/
def besselDivisor (n : ℕ) : ℝ := (n : ℝ) - 1

/-- `bessel_corrected_covariance = covariance / (x.shape[dim] - 1)`
(main.py line 64). -/
def bessel_corrected_covariance {n m : ℕ} (x y : Fin n → Fin m → ℝ) (j : Fin m) : ℝ :=
  covariance x y j / besselDivisor n

/-- PyTorch `t.std(dim=0)` at column `j`: the Bessel-corrected (unbiased)
sample standard deviation, `sqrt(sum((t - mean)^2) / (n - 1))`. -/
def sampleStd {n m : ℕ} (x : Fin n → Fin m → ℝ) (j : Fin m) : ℝ :=
  Real.sqrt ((∑ i, centered x i j ^ 2) / besselDivisor n)

/-- `vectorized_correlation(x, y)` (main.py lines 56-71) at column `j`:
`corr = bessel_corrected_covariance / (x_std * y_std)` where
`x_std = x.std(dim) + 1e-8` and `y_std = y.std(dim) + 1e-8`. -/
def vectorized_correlation {n m : ℕ} (x y : Fin n → Fin m → ℝ) : Fin m → ℝ :=
  fun j => bessel_corrected_covariance x y j / ((sampleStd x j + eps) * (sampleStd y j + eps))

/-- `corr.ravel()` (main.py line 71): the one-dimensional output vector, one
entry per input column. -/
def vectorized_correlation_ravel {n m : ℕ} (x y : Fin n → Fin m → ℝ) : List ℝ :=
  List.ofFn (vectorized_correlation x y)

/-- The spec's description of the metric, written from its words: for each
output dimension, the Pearson correlation across the batch dimension computed
as the Bessel-corrected sample covariance (sum of centered products divided by
`n - 1`) divided by the product of the two sample standard deviations, each
with `1e-8` added. -/
def pearsonSpecFormula {n m : ℕ} (x y : Fin n → Fin m → ℝ) (j : Fin m) : ℝ :=
  ((∑ i, (x i j - (∑ k, x k j) / n) * (y i j - (∑ k, y k j) / n)) / ((n : ℝ) - 1)) /
    ((Real.sqrt ((∑ i, (x i j - (∑ k, x k j) / n) ^ 2) / ((n : ℝ) - 1)) + 1e-8) *
      (Real.sqrt ((∑ i, (y i j - (∑ k, y k j) / n) ^ 2) / ((n : ℝ) - 1)) + 1e-8))

/-! ## validation_epoch_end and the callbacks monitoring val_corr -/

/-- A logged scalar metric: name and value, as passed to `self.log`. -/
structure LogEntry where
  name : String
  value : ℝ

/-- `validation_epoch_end` (main.py lines 183-191), applied to the already
concatenated validation outputs and targets (`torch.cat` of the per-step
outputs along dim 0): logs `vectorized_correlation(val_outs, val_ys).mean()`
under the name `val_corr`. -/
def validation_epoch_end {n m : ℕ} (val_outs val_ys : Fin n → Fin m → ℝ) : LogEntry :=
  { name := "val_corr", value := (∑ j, vectorized_correlation val_outs val_ys j) / m }

/-- Monitoring configuration of a Lightning callback: the metric it watches
and the optimization direction. -/
structure MonitorConfig where
  monitor : String
  mode : String

/-- `ModelCheckpoint(monitor='val_corr', ..., mode='max')`
(main.py lines 274-281). -/
def checkpoint_callback : MonitorConfig :=
  { monitor := "val_corr", mode := "max" }

/-- `EarlyStopping(monitor='val_corr', ..., mode='max')`
(main.py lines 283-289). -/
def early_stop_callback : MonitorConfig :=
  { monitor := "val_corr", mode := "max" }

end RealEmbedding

/-! ## training_step (main.py lines 152-175): sequence of sub-steps -/

/-- Observable sub-steps of `LitI3DFC.training_step`. -/
inductive TrainEvent where
  /-- `_shared_train_val`: forward pass and MSE loss, logged when the flag
  `is_log` is true (main.py lines 135-142). -/
  | forwardLoss (is_log : Bool)
  /-- `self.manual_backward(loss)`: backpropagation. -/
  | backwardPass
  /-- `optimizer.first_step(zero_grad=True)`: the SAM ascent/perturbation
  step. -/
  | samFirstStep
  /-- `self.backbone.apply(disable_bn)`: put the backbone's BatchNorm3d
  modules in eval mode, freezing their running statistics. -/
  | freezeBackboneBN
  /-- `optimizer.second_step(zero_grad=True)`: the SAM descent step, which
  also reverts the perturbation. -/
  | samSecondStep
  /-- `optimizer.step()`: one ordinary optimizer step (non-asm branch). -/
  | plainOptStep
deriving DecidableEq

/-- Events emitted by one call of `_shared_train_val` (main.py lines
135-142). -/
def shared_train_val_events (is_log : Bool) : List TrainEvent :=
  [.forwardLoss is_log]

/-- Events emitted by one call of `LitI3DFC.training_step`
(main.py lines 152-175), as a function of the `asm` hyperparameter. -/
def training_step_events (asm : Bool) : List TrainEvent :=
  shared_train_val_events true ++ [.backwardPass] ++
    (if asm then
      [.samFirstStep, .freezeBackboneBN] ++ shared_train_val_events false ++
        [.backwardPass, .samSecondStep]
    else
      [.plainOptStep])

/-- Modelled from the spec: the SAM optimizer (`sam.py`, imported by main.py
but absent from the repository sources). Per the spec, `first_step` is "an
exploratory ascent step that perturbs parameters toward higher local loss"
and `second_step` is "a descent step that also reverts the perturbation".
Parameters live in an additive group `P`; the optimizer stores the applied
perturbation so the second step can undo it. -/
structure SAMOptimizer (P : Type) [AddCommGroup P] where
  params : P
  storedPerturbation : P

/-- Modelled from the spec: `first_step` applies the ascent perturbation `e`
to the parameters and remembers it. -/
def first_step {P : Type} [AddCommGroup P] (e : P) (o : SAMOptimizer P) : SAMOptimizer P :=
  { params := o.params + e, storedPerturbation := e }

/-- Modelled from the spec: `second_step` reverts the stored perturbation and
applies the base optimizer's descent update `upd` (computed from the
gradients taken at the perturbed point). -/
def second_step {P : Type} [AddCommGroup P] (upd : P) (o : SAMOptimizer P) : SAMOptimizer P :=
  { params := o.params - o.storedPerturbation - upd, storedPerturbation := 0 }

/-! ## disable_bn and the module trees it touches (main.py lines 163-173) -/

/-- The kind of a PyTorch submodule, as far as `disable_bn`'s
`isinstance(module, nn.BatchNorm3d)` test can distinguish them. -/
inductive ModuleKind where
  | batchNorm3d
  | batchNorm1d
  | otherModule
deriving DecidableEq

/-- A PyTorch submodule: its kind and its `training` flag. A batch-norm
module updates its running statistics during a forward pass iff `training`
is true; `module.eval()` sets `training := false`. -/
structure TorchModule where
  kind : ModuleKind
  training : Bool
deriving DecidableEq

/-- `disable_bn` (main.py lines 164-167) acting on the flattened list of
submodules (`model.modules()`): every `nn.BatchNorm3d` module is put in eval
mode; every other module is left untouched. -/
def disable_bn (modules : List TorchModule) : List TorchModule :=
  modules.map fun mdl =>
    if mdl.kind = .batchNorm3d then { mdl with training := false } else mdl

/-- The submodules of a `LitI3DFC` model, split into the two children the
training step distinguishes: `self.backbone` and `self.minifc` (the
regression head). -/
structure LitModelModules where
  backboneModules : List TorchModule
  minifcModules : List TorchModule
deriving DecidableEq

/-- The batch-norm freeze of the asm branch (main.py line 170):
`self.backbone.apply(disable_bn)` — applied to the backbone alone, the
regression head is not visited. -/
def applyAsmBNFreeze (model : LitModelModules) : LitModelModules :=
  { model with backboneModules := disable_bn model.backboneModules }

/-! ## DataAugmentation (main.py lines 74-92) and train_transform -/

/-- The kornia augmentations `DataAugmentation.__init__` composes. -/
inductive AugmentKind where
  | randomHorizontalFlip3D
  | randomRotation3D
deriving DecidableEq

/-- One configured augmentation: its kind, its application probability `p`,
and its `degrees` bound when it is a rotation. -/
structure AugmentConfig where
  kind : AugmentKind
  p : ℚ
  degrees : Option ℚ
deriving DecidableEq

/-- Configuration of a `DataAugmentation` module: the transform pipeline and
whether its forward pass runs with gradient tracking disabled
(the `@torch.no_grad()` decorator on main.py line 89). -/
structure DataAugmentationConfig where
  transforms : List AugmentConfig
  gradTrackingDisabled : Bool
deriving DecidableEq

/-- The `DataAugmentation` module (main.py lines 74-92):
`RandomHorizontalFlip3D(p=0.5)` followed by `RandomRotation3D(degrees=15,
p=0.5)`, with the forward pass under `@torch.no_grad()`. -/
def dataAugmentation : DataAugmentationConfig :=
  { transforms :=
      [ { kind := .randomHorizontalFlip3D, p := 0.5, degrees := none },
        { kind := .randomRotation3D, p := 0.5, degrees := some 15 } ],
    gradTrackingDisabled := true }

/-- `self.train_transform = None` (main.py line 106, the active line; the
`DataAugmentation()` assignment above it is commented out). -/
def train_transform {α : Type} : Option (α → α) := none

/-- Main.py line 155:
`x = self.train_transform(x) if self.train_transform is not None else x`. -/
def applyTrainTransform {α : Type} (tt : Option (α → α)) (x : α) : α :=
  match tt with
  | some t => t x
  | none => x

/-! ## start_tasks.py: experiment fan-out -/

/-- `rois` (start_tasks.py line 15). -/
def rois : List String :=
  ["LOC", "FFA", "STS", "EBA", "PPA", "V1", "V2", "V3", "V4"]

/-- `available_devices` (start_tasks.py lines 18-20): one device group `16`
with devices 0 and 1. -/
def available_devices : List (String × List ℕ) := [("16", [0, 1])]

/-- `queue_names` (start_tasks.py lines 22-25): for each device group `k`
and each device `v` in it, the queue name `f'{k}-{v}'`. -/
def queue_names : List String :=
  (available_devices.map (fun kv => kv.2.map (fun v => kv.1 ++ "-" ++ toString v))).flatten

/-- `pathways` (start_tasks.py line 30). -/
def pathways : List String := ["topdown", "none"]

/-- `layers` (start_tasks.py line 31). -/
def layers : String := "x1,x2,x3,x4"

/-- The jobs in submission order: `for pathway in pathways: for roi in rois:`
(start_tasks.py lines 32-33), pathways outer, ROIs inner. -/
def jobList : List (String × String) :=
  pathways.flatMap fun pathway => rois.map fun roi => (pathway, roi)

/-- `queues_buffer = itertools.cycle(queue_names)` with one `next` per job
(start_tasks.py lines 26 and 34): the i-th job (0-indexed) draws
`queue_names[i mod len(queue_names)]`. -/
def assignedQueue (i : ℕ) : String :=
  queue_names.getD (i % queue_names.length) ""

/-- Python's `s.split(c)` for a one-character separator, on the character
list: split at every occurrence of `c`. -/
def splitCharAux (c : Char) : List Char → List Char → List (List Char)
  | [], acc => [acc.reverse]
  | d :: ds, acc =>
    if d = c then acc.reverse :: splitCharAux c ds []
    else splitCharAux c ds (d :: acc)

/-- Python's `s.split(c)` for a one-character separator `c`. -/
def split_on_char (c : Char) (s : String) : List String :=
  (splitCharAux c s.data []).map fun l => String.mk l

/-- The component before the first `-` of a queue name (the device group). -/
def queueGroup (q : String) : String := (split_on_char '-' q).getD 0 ""

/-- The component after the first `-` of a queue name (the device index);
`queue.split('-')[1]` in start_tasks.py line 52. -/
def queueIndex (q : String) : String := (split_on_char '-' q).getD 1 ""

/-- A hyperparameter value written by the fan-out loop. -/
inductive ParamValue where
  | strv (s : String)
  | natv (n : ℕ)
  | boolv (b : Bool)
  | ratv (q : ℚ)
deriving DecidableEq

/-- The hyperparameter fields the fan-out loop overwrites on each cloned task
(start_tasks.py lines 44-64), for a given pathway, ROI and assigned queue.
`Args/gpus` is set to `queue.split('-')[1]` (line 52). -/
def cloned_task_parameters (pathway roi queue : String) : List (String × ParamValue) :=
  [ ("Args/roi", .strv roi),
    ("Args/batch_size", .natv 32),
    ("Args/num_layers", .natv 1),
    ("Args/conv_size", .natv 256),
    ("Args/layer_hidden", .natv 2048),
    ("Args/debug", .boolv false),
    ("Args/early_stop_epochs", .natv 5),
    ("Args/gpus", .strv (queueIndex queue)),
    ("Args/x1_pooling_mode", .strv "spp"),
    ("Args/x2_pooling_mode", .strv "spp"),
    ("Args/x3_pooling_mode", .strv "spp"),
    ("Args/x4_pooling_mode", .strv "spp"),
    ("Args/backbone_type", .strv "all"),
    ("Args/fc_fusion", .strv "concat"),
    ("Args/pyramid_layers", .strv layers),
    ("Args/pathways", .strv pathway),
    ("Args/aux_loss_weight", .ratv 0),
    ("Args/val_check_interval", .ratv 0.5),
    ("Args/save_checkpoints", .boolv true),
    ("Args/predictions_dir",
      .strv ("/home/huze/.cache/predictions/v2_pyramid_" ++ pathway ++ "_" ++ layers ++ "/")) ]

/-- One job as submitted by `Task.enqueue(cloned_task.id, queue_name=queue)`
(start_tasks.py line 72): the queue it was enqueued on, the pathway/ROI pair
it was cloned for, and the parameters written into the clone. -/
structure SubmittedJob where
  queue : String
  pathway : String
  roi : String
  params : List (String × ParamValue)
deriving DecidableEq

/-- Placeholder job used for out-of-range list access. -/
def defaultJob : SubmittedJob := { queue := "", pathway := "", roi := "", params := [] }

/-- The full fan-out trace of start_tasks.py lines 32-75: the i-th job pairs
the i-th (pathway, roi) combination with the i-th round-robin queue. -/
def fanout : List SubmittedJob :=
  jobList.enum.map fun job =>
    { queue := assignedQueue job.1,
      pathway := job.2.1,
      roi := job.2.2,
      params := cloned_task_parameters job.2.1 job.2.2 (assignedQueue job.1) }

/-! ## Helper lemmas and concrete inputs -/

lemma besselDivisor_pos {n : ℕ} (h : 2 ≤ n) : 0 < besselDivisor n := by
  have h2 : (2 : ℝ) ≤ (n : ℝ) := by exact_mod_cast h
  unfold besselDivisor
  linarith

lemma sampleStd_nonneg {n m : ℕ} (x : Fin n → Fin m → ℝ) (j : Fin m) : 0 ≤ sampleStd x j :=
  Real.sqrt_nonneg _

lemma eps_pos : (0 : ℝ) < eps := by norm_num [eps]

lemma corrDenom_pos {n m : ℕ} (x y : Fin n → Fin m → ℝ) (j : Fin m) :
    0 < (sampleStd x j + eps) * (sampleStd y j + eps) :=
  mul_pos (add_pos_of_nonneg_of_pos (sampleStd_nonneg x j) eps_pos)
    (add_pos_of_nonneg_of_pos (sampleStd_nonneg y j) eps_pos)

lemma abs_bessel_cov_le {n m : ℕ} (x y : Fin n → Fin m → ℝ) (h : 2 ≤ n) (j : Fin m) :
    |bessel_corrected_covariance x y j| ≤ sampleStd x j * sampleStd y j := by
  have hd := besselDivisor_pos h
  have hA : (0 : ℝ) ≤ ∑ i, centered x i j ^ 2 := sum_nonneg fun i _ => sq_nonneg _
  have hB : (0 : ℝ) ≤ ∑ i, centered y i j ^ 2 := sum_nonneg fun i _ => sq_nonneg _
  have hCS1 : covariance x y j ≤
      Real.sqrt (∑ i, centered x i j ^ 2) * Real.sqrt (∑ i, centered y i j ^ 2) :=
    Real.sum_mul_le_sqrt_mul_sqrt univ _ _
  have hCS2 : -covariance x y j ≤
      Real.sqrt (∑ i, centered x i j ^ 2) * Real.sqrt (∑ i, centered y i j ^ 2) := by
    have h2 := Real.sum_mul_le_sqrt_mul_sqrt univ (fun i => centered x i j)
      (fun i => -centered y i j)
    simpa [covariance, mul_neg, ← Finset.sum_neg_distrib] using h2
  have habs : |covariance x y j| ≤
      Real.sqrt (∑ i, centered x i j ^ 2) * Real.sqrt (∑ i, centered y i j ^ 2) :=
    abs_le.mpr ⟨by linarith, hCS1⟩
  have hsx : sampleStd x j =
      Real.sqrt (∑ i, centered x i j ^ 2) / Real.sqrt (besselDivisor n) := by
    rw [sampleStd, Real.sqrt_div hA]
  have hsy : sampleStd y j =
      Real.sqrt (∑ i, centered y i j ^ 2) / Real.sqrt (besselDivisor n) := by
    rw [sampleStd, Real.sqrt_div hB]
  have hprod : sampleStd x j * sampleStd y j =
      (Real.sqrt (∑ i, centered x i j ^ 2) * Real.sqrt (∑ i, centered y i j ^ 2)) /
        besselDivisor n := by
    rw [hsx, hsy, div_mul_div_comm, Real.mul_self_sqrt hd.le]
  rw [bessel_corrected_covariance, abs_div, abs_of_pos hd, hprod]
  exact (div_le_div_iff_of_pos_right hd).mpr habs

lemma covariance_self {n m : ℕ} (x : Fin n → Fin m → ℝ) (j : Fin m) :
    covariance x x j = ∑ i, centered x i j ^ 2 := by
  simp [covariance, sq]

noncomputable section ConcreteInputs

/-- All-zero 2-by-1 matrix, a concrete input. -/
def xw : Fin 2 → Fin 1 → ℝ := fun _ _ => 0

/-- Constant 2-by-1 matrix with value 5: a zero-variance column. -/
def yconst : Fin 2 → Fin 1 → ℝ := fun _ _ => 5

/-- 2-by-1 matrix with column entries 0 and 2: nonzero sample variance. -/
def xex : Fin 2 → Fin 1 → ℝ := fun i _ => if i = 0 then 0 else 2

end ConcreteInputs

lemma xex_std : sampleStd xex 0 = Real.sqrt 2 := by
  simp [sampleStd, centered, colMean, besselDivisor, xex, Fin.sum_univ_two]
  norm_num

lemma xex_bessel : bessel_corrected_covariance xex xex 0 = 2 := by
  simp [bessel_corrected_covariance, covariance, centered, colMean, besselDivisor, xex,
    Fin.sum_univ_two]
  norm_num

lemma disable_bn_freezes (ms : List TorchModule) :
    ((disable_bn ms).all fun b => !(b.kind == ModuleKind.batchNorm3d) || !b.training) = true := by
  rw [disable_bn, List.all_map, List.all_eq_true]
  intro a _
  by_cases hk : a.kind = ModuleKind.batchNorm3d
  · simp [hk]
  · simp [hk]

lemma disable_bn_frame (ms : List TorchModule) :
    ((ms.zip (disable_bn ms)).all
      fun p => (p.1.kind == ModuleKind.batchNorm3d) || (p.1 == p.2)) = true := by
  induction ms with
  | nil => rfl
  | cons a as ih =>
    rw [disable_bn, List.map_cons, List.zip_cons_cons, List.all_cons, Bool.and_eq_true]
    refine ⟨?_, ih⟩
    by_cases hk : a.kind = ModuleKind.batchNorm3d
    · simp [hk]
    · simp [hk]

/-! ## Claim theorems -/

/-- C1: for same-shaped inputs with at least two rows, `vectorized_correlation`
computes, per output dimension, the Bessel-corrected sample covariance divided
by the product of the two sample standard deviations each with `1e-8` added
(the Pearson formula the spec describes), returning one value per output
dimension; and `validation_epoch_end` reports the mean of these values across
dimensions as `val_corr`, the metric both the checkpoint and the early-stopping
callbacks maximize. -/
theorem correlation_matches_spec_and_val_corr {n m : ℕ} (x y : Fin n → Fin m → ℝ)
    (_h : 2 ≤ n) (j : Fin m) :
    vectorized_correlation x y j = pearsonSpecFormula x y j ∧
    (vectorized_correlation_ravel x y).length = m ∧
    (validation_epoch_end x y).name = "val_corr" ∧
    (validation_epoch_end x y).value = (∑ k, vectorized_correlation x y k) / m ∧
    checkpoint_callback.monitor = "val_corr" ∧ checkpoint_callback.mode = "max" ∧
    early_stop_callback.monitor = "val_corr" ∧ early_stop_callback.mode = "max" := by
  refine ⟨?_, by simp [vectorized_correlation_ravel], rfl, rfl, rfl, rfl, rfl, rfl⟩
  simp only [vectorized_correlation, pearsonSpecFormula, bessel_corrected_covariance,
    covariance, centered, colMean, sampleStd, besselDivisor, eps]

/-- Witness for C1 at the concrete 2-by-1 input `xw`. -/
theorem correlation_matches_spec_and_val_corr_witness :
    vectorized_correlation xw xw 0 = pearsonSpecFormula xw xw 0 ∧
    (vectorized_correlation_ravel xw xw).length = 1 ∧
    (validation_epoch_end xw xw).name = "val_corr" ∧
    (validation_epoch_end xw xw).value = (∑ k, vectorized_correlation xw xw k) / (1 : ℕ) ∧
    checkpoint_callback.monitor = "val_corr" ∧ checkpoint_callback.mode = "max" ∧
    early_stop_callback.monitor = "val_corr" ∧ early_stop_callback.mode = "max" :=
  correlation_matches_spec_and_val_corr xw xw (by norm_num) 0

/-- C2: every entry of the returned correlation vector lies in the closed
interval from -1 to 1, for any same-shaped real inputs with at least two
rows. -/
theorem vectorized_correlation_bounded {n m : ℕ} (x y : Fin n → Fin m → ℝ)
    (h : 2 ≤ n) (j : Fin m) :
    -1 ≤ vectorized_correlation x y j ∧ vectorized_correlation x y j ≤ 1 := by
  have hD := corrDenom_pos x y j
  have h1 := abs_bessel_cov_le x y h j
  have h2 : sampleStd x j * sampleStd y j ≤ (sampleStd x j + eps) * (sampleStd y j + eps) := by
    nlinarith [sampleStd_nonneg x j, sampleStd_nonneg y j, eps_pos]
  have habs : |vectorized_correlation x y j| ≤ 1 := by
    simp only [vectorized_correlation]
    rw [abs_div, abs_of_pos hD]
    exact (div_le_one hD).mpr (h1.trans h2)
  exact abs_le.mp habs

/-- Witness for C2 at the concrete input `xex`. -/
theorem vectorized_correlation_bounded_witness :
    -1 ≤ vectorized_correlation xex xex 0 ∧ vectorized_correlation xex xex 0 ≤ 1 :=
  vectorized_correlation_bounded xex xex (by norm_num) 0

/-- C3 counterexample: at the 2-by-1 input with entries 0 and 2 the target
column has nonzero sample variance, yet the correlation of the input with
itself is not 1 (the added `1e-8` makes it strictly smaller). -/
theorem identity_correlation_not_one_cex :
    sampleStd xex 0 ≠ 0 ∧ vectorized_correlation xex xex 0 ≠ 1 := by
  have hs2 : Real.sqrt 2 ^ 2 = 2 := Real.sq_sqrt (by norm_num)
  have hspos : (0 : ℝ) < Real.sqrt 2 := Real.sqrt_pos.mpr (by norm_num)
  have he := eps_pos
  constructor
  · rw [xex_std]
    exact Real.sqrt_ne_zero'.mpr (by norm_num)
  · simp only [vectorized_correlation]
    rw [xex_bessel, xex_std]
    have hD : 0 < (Real.sqrt 2 + eps) * (Real.sqrt 2 + eps) := by positivity
    intro hcontra
    rw [div_eq_one_iff_eq (ne_of_gt hD)] at hcontra
    nlinarith [mul_pos hspos he, mul_pos he he]

/-- C3 amended: on identical inputs, a column with nonzero sample variance s
gets correlation s^2 / (s + 1e-8)^2, strictly between 0 and 1 — close to 1
but not equal to it. -/
theorem identity_correlation_epsilon_formula {n m : ℕ} (x : Fin n → Fin m → ℝ)
    (h : 2 ≤ n) (j : Fin m) (hstd : sampleStd x j ≠ 0) :
    vectorized_correlation x x j = sampleStd x j ^ 2 / (sampleStd x j + eps) ^ 2 ∧
    0 < vectorized_correlation x x j ∧ vectorized_correlation x x j < 1 := by
  have hd := besselDivisor_pos h
  have hA : (0 : ℝ) ≤ ∑ i, centered x i j ^ 2 := sum_nonneg fun i _ => sq_nonneg _
  have hsq : sampleStd x j ^ 2 = (∑ i, centered x i j ^ 2) / besselDivisor n :=
    Real.sq_sqrt (div_nonneg hA hd.le)
  have hs : 0 < sampleStd x j := lt_of_le_of_ne (sampleStd_nonneg x j) (Ne.symm hstd)
  have he := eps_pos
  have heq : vectorized_correlation x x j = sampleStd x j ^ 2 / (sampleStd x j + eps) ^ 2 := by
    simp only [vectorized_correlation, bessel_corrected_covariance, covariance_self]
    rw [← hsq]
    ring
  refine ⟨heq, ?_, ?_⟩
  · rw [heq]
    positivity
  · rw [heq, div_lt_one (by positivity)]
    nlinarith [mul_pos hs he, mul_pos he he]

/-- Witness for the amended C3 at the concrete input `xex`. -/
theorem identity_correlation_epsilon_formula_witness :
    vectorized_correlation xex xex 0 = sampleStd xex 0 ^ 2 / (sampleStd xex 0 + eps) ^ 2 ∧
    0 < vectorized_correlation xex xex 0 ∧ vectorized_correlation xex xex 0 < 1 :=
  identity_correlation_epsilon_formula xex (by norm_num) 0
    (by rw [xex_std]; exact Real.sqrt_ne_zero'.mpr (by norm_num))

/-- C4: when the target column is constant (zero sample variance), the
denominator of `vectorized_correlation` is still strictly positive thanks to
the added `1e-8`, so the division is by a nonzero number and the returned
value for that dimension is the finite value 0. -/
theorem zero_variance_denominator_pos {n m : ℕ} (x y : Fin n → Fin m → ℝ) (h : 2 ≤ n)
    (j : Fin m) (hconst : ∀ i i' : Fin n, y i j = y i' j) :
    0 < (sampleStd x j + eps) * (sampleStd y j + eps) ∧
    sampleStd y j = 0 ∧
    vectorized_correlation x y j = 0 := by
  have hn : (n : ℝ) ≠ 0 := by
    have h2 : (2 : ℝ) ≤ (n : ℝ) := by exact_mod_cast h
    linarith
  have hcent : ∀ i, centered y i j = 0 := by
    intro i
    have hmean : colMean y j = y i j := by
      rw [colMean, Finset.sum_congr rfl (fun k _ => hconst k i)]
      simp [Finset.sum_const, card_univ]
      field_simp
    simp [centered, hmean]
  have hstd : sampleStd y j = 0 := by
    simp [sampleStd, hcent]
  refine ⟨corrDenom_pos x y j, hstd, ?_⟩
  simp [vectorized_correlation, bessel_corrected_covariance, covariance, hcent]

/-- Witness for C4 at the concrete inputs `xw` and the constant column
`yconst`. -/
theorem zero_variance_denominator_pos_witness :
    0 < (sampleStd xw 0 + eps) * (sampleStd yconst 0 + eps) ∧
    sampleStd yconst 0 = 0 ∧
    vectorized_correlation xw yconst 0 = 0 :=
  zero_variance_denominator_pos xw yconst (by norm_num) 0 (fun _ _ => rfl)

/-- C9: the Bessel divisor `x.shape[0] - 1` is zero for a single-row input
(the ratio is then not a correlation), while for at least two rows it is
strictly positive and the function totally returns a one-dimensional vector
with exactly one entry per input column. -/
theorem correlation_requires_two_rows {n m : ℕ} (x y : Fin n → Fin m → ℝ) (h : 2 ≤ n) :
    besselDivisor 1 = 0 ∧ 0 < besselDivisor n ∧
    (vectorized_correlation_ravel x y).length = m := by
  refine ⟨by norm_num [besselDivisor], besselDivisor_pos h, ?_⟩
  simp [vectorized_correlation_ravel]

/-- Witness for C9 at the concrete 2-by-1 input `xw`. -/
theorem correlation_requires_two_rows_witness :
    besselDivisor 1 = 0 ∧ 0 < besselDivisor 2 ∧
    (vectorized_correlation_ravel xw xw).length = 1 :=
  correlation_requires_two_rows xw xw (by norm_num)

/-- C5: with `asm` enabled, `training_step` performs exactly the sequence
loss-and-log, backward, SAM first step, backbone batch-norm freeze,
loss (unlogged), backward, SAM second step; with `asm` disabled it performs
loss-and-log, backward, one plain optimizer step. Moreover, in the
spec-modelled SAM semantics, the first step perturbs the parameters by the
ascent offset and the second step reverts that perturbation while applying
the descent update. -/
theorem training_step_event_sequence :
    training_step_events true =
      [.forwardLoss true, .backwardPass, .samFirstStep, .freezeBackboneBN,
       .forwardLoss false, .backwardPass, .samSecondStep] ∧
    training_step_events false = [.forwardLoss true, .backwardPass, .plainOptStep] ∧
    ∀ (P : Type) [AddCommGroup P] (o : SAMOptimizer P) (e upd : P),
      (first_step e o).params = o.params + e ∧
      (second_step upd (first_step e o)).params = o.params - upd := by
  refine ⟨rfl, rfl, ?_⟩
  intro P _ o e upd
  constructor
  · rfl
  · simp [first_step, second_step]

/-- C6: with the fixed device pool (group 16, devices 0 and 1) and the fixed
pathway and ROI lists, the 18 jobs are assigned to the two queues in strict
round-robin order: job i goes to queue i mod 2, alternating 16-0, 16-1. -/
theorem fanout_round_robin :
    queue_names = ["16-0", "16-1"] ∧
    jobList.length = 18 ∧
    fanout.map SubmittedJob.queue =
      ["16-0", "16-1", "16-0", "16-1", "16-0", "16-1", "16-0", "16-1", "16-0",
       "16-1", "16-0", "16-1", "16-0", "16-1", "16-0", "16-1", "16-0", "16-1"] ∧
    ∀ i : Fin 18, (fanout.getD i.val defaultJob).queue = queue_names.getD (i.val % 2) "" := by
  decide

/-- C7: every queue name has the form device-group, hyphen, device-index, and
every submitted job sets the Args/gpus hyperparameter to the device-index
component of its assigned queue name (the substring after the first
hyphen). -/
theorem fanout_queue_naming_and_gpus :
    (∀ i : Fin 2, queueGroup (queue_names.getD i.val "") = "16" ∧
      queueIndex (queue_names.getD i.val "") = toString i.val ∧
      queue_names.getD i.val "" =
        queueGroup (queue_names.getD i.val "") ++ "-" ++
          queueIndex (queue_names.getD i.val "")) ∧
    ∀ i : Fin 18,
      (fanout.getD i.val defaultJob).queue =
        queueGroup ((fanout.getD i.val defaultJob).queue) ++ "-" ++
          queueIndex ((fanout.getD i.val defaultJob).queue) ∧
      (fanout.getD i.val defaultJob).params.lookup "Args/gpus" =
        some (.strv (queueIndex ((fanout.getD i.val defaultJob).queue))) := by
  decide

/-- C8: the DataAugmentation module is configured as a randomized 3D
horizontal flip with probability 0.5 followed by a randomized 3D rotation of
up to 15 degrees with probability 0.5, its forward pass runs with gradient
tracking disabled; and the active training path disables it: train_transform
is None, so the training-step input reaches the forward pass unchanged. -/
theorem data_augmentation_config_and_unused (α : Type) (x : α) :
    dataAugmentation.transforms =
      [ { kind := .randomHorizontalFlip3D, p := 0.5, degrees := none },
        { kind := .randomRotation3D, p := 0.5, degrees := some 15 } ] ∧
    dataAugmentation.gradTrackingDisabled = true ∧
    train_transform (α := α) = none ∧
    applyTrainTransform train_transform x = x :=
  ⟨rfl, rfl, rfl, rfl⟩

/-- C10: the asm batch-norm freeze touches the backbone alone and matches
only BatchNorm3d modules: the regression-head module list is unchanged (so a
head module in training mode keeps updating its running statistics), every
backbone BatchNorm3d ends up out of training mode, and every non-BatchNorm3d
backbone module (including any BatchNorm1d) is left exactly as it was. -/
theorem asm_bn_freeze_scope (model : LitModelModules) (mdl : TorchModule)
    (hmem : mdl ∈ model.minifcModules) (htrain : mdl.training = true) :
    (applyAsmBNFreeze model).minifcModules = model.minifcModules ∧
    mdl ∈ (applyAsmBNFreeze model).minifcModules ∧
    mdl.training = true ∧
    ((applyAsmBNFreeze model).backboneModules.all
      fun b => !(b.kind == ModuleKind.batchNorm3d) || !b.training) = true ∧
    ((model.backboneModules.zip (applyAsmBNFreeze model).backboneModules).all
      fun p => (p.1.kind == ModuleKind.batchNorm3d) || (p.1 == p.2)) = true :=
  ⟨rfl, hmem, htrain, disable_bn_freezes model.backboneModules,
    disable_bn_frame model.backboneModules⟩

/-- A concrete LitI3DFC module layout: a backbone holding a BatchNorm3d, a
BatchNorm1d and an ordinary module, all in training mode, and a regression
head holding a BatchNorm1d and an ordinary module in training mode. -/
def witnessModel : LitModelModules :=
  { backboneModules :=
      [ { kind := .batchNorm3d, training := true },
        { kind := .batchNorm1d, training := true },
        { kind := .otherModule, training := true } ],
    minifcModules :=
      [ { kind := .batchNorm1d, training := true },
        { kind := .otherModule, training := true } ] }

/-- Witness for C10 at the concrete module layout `witnessModel`, with the
head BatchNorm1d as the module that keeps training. -/
theorem asm_bn_freeze_scope_witness :
    (applyAsmBNFreeze witnessModel).minifcModules = witnessModel.minifcModules ∧
    TorchModule.mk .batchNorm1d true ∈ (applyAsmBNFreeze witnessModel).minifcModules ∧
    (TorchModule.mk .batchNorm1d true).training = true ∧
    ((applyAsmBNFreeze witnessModel).backboneModules.all
      fun b => !(b.kind == ModuleKind.batchNorm3d) || !b.training) = true ∧
    ((witnessModel.backboneModules.zip (applyAsmBNFreeze witnessModel).backboneModules).all
      fun p => (p.1.kind == ModuleKind.batchNorm3d) || (p.1 == p.2)) = true :=
  asm_bn_freeze_scope witnessModel (TorchModule.mk .batchNorm1d true) (by decide) rfl

end Algonauts
